import Mathlib

/-!
Verification of `scripts/make_portfolio_report.py` (trend-review-analysis).

The script is a one-shot batch pipeline:
  read two CSVs → derive ISO (year, week) keys → groupby/aggregate →
  inner join → Pearson/Spearman correlation → charts → PDF report.

This file shallowly embeds the data pipeline:
  * dates and Python's `datetime.isocalendar()` (ISO-8601 week numbering),
  * the pandas groupby aggregations of lines 86-105,
  * the inner merge of line 107 and the week index of line 108,
  * a model of `scipy.stats.pearsonr` / `spearmanr` as called on lines 111-112,
  * the trend-metric column selection of lines 98-99,
  * the font resolver `register_korean_font_reportlab` of lines 61-71,
  * the error-propagation structure of `main` (no try/except around data steps).

Machine floats are modelled by `ℚ` together with an explicit NaN constructor
where NaN can arise; fallible steps return `Except`.
-/

/- ### Dates and ISO-8601 week numbering (Python `datetime.date.isocalendar`) -/

/-- A Gregorian calendar date, as produced by `pandas.to_datetime` /
`parse_dates=["at"]` (time-of-day is irrelevant to the script: only
`.dt.isocalendar()` is ever taken). -/
structure Date where
  year : ℕ
  month : ℕ
  day : ℕ
  deriving DecidableEq, Repr

/-- Gregorian leap-year rule. -/
def isLeap (y : ℕ) : Bool :=
  (y % 4 == 0 && y % 100 != 0) || (y % 400 == 0)

/-- Days in the months of year `y` preceding month `m` (1-based). -/
def daysBeforeMonth (y m : ℕ) : ℕ :=
  let lens : List ℕ :=
    [31, if isLeap y then 29 else 28, 31, 30, 31, 30, 31, 31, 30, 31, 30, 31]
  (lens.take (m - 1)).sum

/-- Ordinal day of the year: Jan 1 ↦ 1, Dec 31 ↦ 365/366. -/
def ordinalDay (d : Date) : ℕ :=
  daysBeforeMonth d.year d.month + d.day

/-- Number of leap years in `1..n`. -/
def leapsUpTo (n : ℕ) : ℕ :=
  n / 4 - n / 100 + n / 400

/-- Days elapsed since 0001-01-01 (proleptic Gregorian); that date maps to 0
and was a Monday. -/
def daysSinceEpochStart (d : Date) : ℕ :=
  365 * (d.year - 1) + leapsUpTo (d.year - 1) + (ordinalDay d - 1)

/-- ISO day of week: Monday = 1, ..., Sunday = 7. -/
def isoDayOfWeek (d : Date) : ℕ :=
  daysSinceEpochStart d % 7 + 1

/-- `53`-week-year test: the ISO year `y` has 53 weeks iff Jan 1 of `y` is a
Thursday, or `y` is leap and Jan 1 is a Wednesday; expressed with the standard
`p` function. -/
def isoWeeksInYear (y : ℕ) : ℕ :=
  let p : ℕ → ℕ := fun n => (n + n / 4 - n / 100 + n / 400) % 7
  if p y = 4 ∨ p (y - 1) = 3 then 53 else 52

/-- Python's `datetime.date.isocalendar()` restricted to its first two fields:
the ISO week-based year and the ISO week number. -/
def isocalendar (d : Date) : ℕ × ℕ :=
  let w := (ordinalDay d + 10 - isoDayOfWeek d) / 7
  if w = 0 then
    (d.year - 1, isoWeeksInYear (d.year - 1))
  else if w = 53 ∧ isoWeeksInYear d.year = 52 then
    (d.year + 1, 1)
  else
    (d.year, w)

example : isocalendar ⟨2024, 1, 3⟩ = (2024, 1) := by decide
example : isocalendar ⟨2024, 1, 4⟩ = (2024, 1) := by decide
example : isocalendar ⟨2021, 1, 1⟩ = (2020, 53) := by decide
example : isocalendar ⟨2024, 12, 30⟩ = (2025, 1) := by decide
example : isocalendar ⟨2023, 6, 15⟩ = (2023, 24) := by decide

/- ### The weekly aggregation pipeline (lines 83-108 of the script) -/

/-- One row of `baemin.csv` after `read_csv(..., parse_dates=["at"])`:
timestamp column `at` (named `atTime` here since `at` is reserved in Lean)
and the numeric `score` column; a missing score cell (pandas NaN) is `none`.
The `content` column is unused by the aggregation and omitted. -/
structure ReviewRow where
  atTime : Date
  score : Option ℚ
  deriving DecidableEq, Repr

/-- One row of the trend table after `pd.to_datetime(trend["date"])`, with the
selected metric column's value. -/
structure TrendRow where
  date : Date
  metric : ℚ
  deriving DecidableEq, Repr

/-- Lines 86-87: `(iso_year, iso_week)` of a review row. -/
def reviewKey (r : ReviewRow) : ℕ × ℕ := isocalendar r.atTime

/-- Lines 95-96: `(iso_year, iso_week)` of a trend row. -/
def trendKey (t : TrendRow) : ℕ × ℕ := isocalendar t.date

/-- Lexicographic order used by pandas when sorting group keys
(`groupby(..., sort=True)`, the default). -/
def keyLe (a b : ℕ × ℕ) : Bool :=
  a.1 < b.1 || (a.1 == b.1 && a.2 ≤ b.2)

/-- Insertion into a sorted key list. -/
def insertKey (k : ℕ × ℕ) : List (ℕ × ℕ) → List (ℕ × ℕ)
  | [] => [k]
  | x :: xs => if keyLe k x then k :: x :: xs else x :: insertKey k xs

/-- Insertion sort of group keys. -/
def sortKeys : List (ℕ × ℕ) → List (ℕ × ℕ)
  | [] => []
  | x :: xs => insertKey x (sortKeys xs)

/-- The distinct group keys of `rows` under `key`, in ascending order — the
index produced by `rows.groupby(["iso_year","iso_week"])`. -/
def groupKeys (rows : List α) (key : α → ℕ × ℕ) : List (ℕ × ℕ) :=
  sortKeys ((rows.map key).dedup)

/-- Arithmetic mean of a list of rationals; `none` on the empty list (pandas
`mean` of an all-NaN/empty selection is NaN). -/
def meanOpt (l : List ℚ) : Option ℚ :=
  if l = [] then none else some (l.sum / l.length)

/-- One row of `weekly_reviews` (lines 88-92): group key, `avg_score`
(`("score","mean")`, NaN-skipping) and `review_count` (`("score","size")`). -/
structure WeeklyReviewRow where
  iso_year : ℕ
  iso_week : ℕ
  avg_score : Option ℚ
  review_count : ℕ
  deriving DecidableEq, Repr

/-- Lines 88-92: group the review rows by `(iso_year, iso_week)` and reduce:
`avg_score` is the mean over the non-missing scores of the group (pandas
`"mean"` skips NaN) and `review_count` is the group's row count (`"size"`
counts every row, NaN score or not). -/
def weekly_reviews (rows : List ReviewRow) : List WeeklyReviewRow :=
  (groupKeys rows reviewKey).map fun k =>
    let g := rows.filter fun r => reviewKey r = k
    { iso_year := k.1
      iso_week := k.2
      avg_score := meanOpt (g.filterMap (·.score))
      review_count := g.length }

/-- One row of `weekly_trend` (lines 101-105). -/
structure WeeklyTrendRow where
  iso_year : ℕ
  iso_week : ℕ
  trend_mean : ℚ
  deriving DecidableEq, Repr

/-- Lines 101-105: group the trend rows by `(iso_year, iso_week)` and take the
mean of the selected metric column. Each group is nonempty by construction, so
the mean is total here. -/
def weekly_trend (rows : List TrendRow) : List WeeklyTrendRow :=
  (groupKeys rows trendKey).map fun k =>
    let g := rows.filter fun t => trendKey t = k
    { iso_year := k.1
      iso_week := k.2
      trend_mean := (g.map (·.metric)).sum / (g.length : ℚ) }

/-- Line 108: `merged["week_index"] = merged["iso_year"]*100 + merged["iso_week"]`. -/
def weekIndex (y w : ℕ) : ℕ := y * 100 + w

/-- One row of `merged` (lines 107-108). -/
structure MergedRow where
  iso_year : ℕ
  iso_week : ℕ
  avg_score : Option ℚ
  review_count : ℕ
  trend_mean : ℚ
  week_index : ℕ
  deriving DecidableEq, Repr

/-- Line 107: `weekly_reviews.merge(weekly_trend, on=["iso_year","iso_week"],
how="inner")`, augmented with line 108's week index. For each left row in
order, the (unique) right row with the same key is looked up; left rows
without a partner are dropped. Line 108 then adds `week_index`. -/
def merged (wr : List WeeklyReviewRow) (wt : List WeeklyTrendRow) :
    List MergedRow :=
  wr.filterMap fun a =>
    (wt.find? fun b => b.iso_year == a.iso_year && b.iso_week == a.iso_week).map
      fun b =>
        { iso_year := a.iso_year
          iso_week := a.iso_week
          avg_score := a.avg_score
          review_count := a.review_count
          trend_mean := b.trend_mean
          week_index := weekIndex a.iso_year a.iso_week }

/-- The review rows of the spec's worked scenario. -/
def scenarioReviews : List ReviewRow :=
  [⟨⟨2024, 1, 3⟩, some 5⟩, ⟨⟨2024, 1, 4⟩, some 3⟩]

/-- The trend rows of the spec's worked scenario. -/
def scenarioTrend : List TrendRow :=
  [⟨⟨2024, 1, 3⟩, 10⟩, ⟨⟨2024, 1, 4⟩, 20⟩]

theorem scenarioReviewKeys :
    reviewKey ⟨⟨2024, 1, 3⟩, some 5⟩ = (2024, 1) ∧
    reviewKey ⟨⟨2024, 1, 4⟩, some 3⟩ = (2024, 1) := by decide

theorem scenarioTrendKeys :
    trendKey ⟨⟨2024, 1, 3⟩, 10⟩ = (2024, 1) ∧
    trendKey ⟨⟨2024, 1, 4⟩, 20⟩ = (2024, 1) := by decide

example :
    merged (weekly_reviews scenarioReviews) (weekly_trend scenarioTrend) =
    [⟨2024, 1, some 4, 2, 15, 202401⟩] := by
  simp [merged, weekly_reviews, weekly_trend, scenarioReviews, scenarioTrend,
    groupKeys, sortKeys, insertKey, meanOpt, weekIndex,
    scenarioReviewKeys.1, scenarioReviewKeys.2,
    scenarioTrendKeys.1, scenarioTrendKeys.2, List.find?]
  norm_num

/- ### Model of `scipy.stats.pearsonr` / `spearmanr` (lines 110-112) -/

/-- Scaled variance of a value list: `n·Σx² − (Σx)²` (equal to `n²` times the
empirical variance). It is zero exactly on constant (or empty) input. -/
def svar (l : List ℚ) : ℚ :=
  (l.length : ℚ) * (l.map fun x => x * x).sum - (l.sum) ^ 2

/-- Scaled covariance of a paired list: `n·Σxy − Σx·Σy`. -/
def scov (l : List (ℚ × ℚ)) : ℚ :=
  (l.length : ℚ) * (l.map fun p => p.1 * p.2).sum -
    (l.map Prod.fst).sum * (l.map Prod.snd).sum

/-- Outcome of one correlation computation. Floats are exact here:
`nan` is scipy's `(nan, nan)` answer on degenerate input, and
`val num den2 n` determines the defined answer exactly — the coefficient is
`num / √den2` and the two-sided p-value is a fixed function of the
coefficient and the sample size `n`, so equality of `CorrVal`s is equality
of all the scalars scipy returns. -/
inductive CorrVal
  | nan
  | val (num den2 : ℚ) (n : ℕ)
  deriving DecidableEq, Repr

/-- Shared core of both correlation computations on fully defined input:
`nan` when either sequence has zero variance (scipy emits a
`ConstantInputWarning` and returns `(nan, nan)`), otherwise the defined
coefficient `scov l / √(svar x · svar y)` together with the sample size. -/
def corrCore (l : List (ℚ × ℚ)) : CorrVal :=
  if svar (l.map Prod.fst) = 0 ∨ svar (l.map Prod.snd) = 0 then .nan
  else .val (scov l) (svar (l.map Prod.fst) * svar (l.map Prod.snd)) l.length

/-- `scipy.stats.pearsonr`: raises `ValueError` for fewer than 2 paired
observations, otherwise computes the linear correlation. -/
def pearsonrQ (l : List (ℚ × ℚ)) : Except String CorrVal :=
  if l.length < 2 then .error "x and y must have length at least 2"
  else .ok (corrCore l)

/-- `scipy.stats.rankdata(xs, method="average")` evaluated at `v`:
the average rank of `v` among `xs`. -/
def rankVal (xs : List ℚ) (v : ℚ) : ℚ :=
  ((xs.countP fun x => x < v : ℕ) : ℚ) +
    (((xs.countP fun x => x = v : ℕ) : ℚ) + 1) / 2

/-- Replace each pair by the pair of average ranks of its components within
their own column. -/
def rankPairs (l : List (ℚ × ℚ)) : List (ℚ × ℚ) :=
  l.map fun p =>
    (rankVal (l.map Prod.fst) p.1, rankVal (l.map Prod.snd) p.2)

/-- `scipy.stats.spearmanr`: rank both sequences with average ranks and take
the Pearson correlation of the ranks; degenerate input yields `nan` (it does
not raise for short input, but in this script `pearsonr` runs first anyway). -/
def spearmanrQ (l : List (ℚ × ℚ)) : CorrVal :=
  if l.length < 2 then .nan else corrCore (rankPairs l)

/- ### The full `main` pipeline as a fallible computation (lines 73-272) -/

/-- A raw date/timestamp cell before parsing: either pandas can parse it to a
date or it cannot (carrying the offending text). -/
inductive RawDate
  | parsed (d : Date)
  | unparseable (s : String)
  deriving DecidableEq, Repr

/-- A raw column of the trend CSV: numeric dtype or not. -/
inductive ColValues
  | numeric (vals : List ℚ)
  | text (vals : List String)
  deriving DecidableEq, Repr

/-- `baemin.csv` as read on line 83: the `at` column (to be parsed as dates)
and the `score` column (`none` = missing/NaN cell). -/
structure RawReviewTable where
  atCol : List RawDate
  scoreCol : List (Option ℚ)
  deriving DecidableEq, Repr

/-- `bamin_trend_expanded.csv` as read on line 84: the `date` column and the
remaining named columns. -/
structure RawTrendTable where
  dateCol : List RawDate
  cols : List (String × ColValues)
  deriving DecidableEq, Repr

/-- The uncaught Python exceptions the data pipeline can die with; `main` has
no `try/except` around any data step, so each of these propagates to process
exit. -/
inductive PipeError
  | parseError (s : String)
  | dataShapeError (s : String)
  | statsError (s : String)
  deriving DecidableEq, Repr

/-- Date parsing (`parse_dates=["at"]` + the `.dt` accessor on line 86, and
`pd.to_datetime` on line 94): the first unparseable cell raises. -/
def parseDates : List RawDate → Except PipeError (List Date)
  | [] => .ok []
  | .parsed d :: rest => (parseDates rest).map fun ds => d :: ds
  | .unparseable s :: _ => .error (.parseError ("could not parse " ++ s))

/-- The numeric columns of the trend SOURCE file itself, in CSV order
(`date` parses to datetime64, which is not an `np.number` dtype). -/
def csvNumericCols (t : RawTrendTable) : List String :=
  t.cols.filterMap fun c =>
    match c.2 with
    | .numeric _ => some c.1
    | .text _ => none

/-- Line 98: `trend.select_dtypes(include=[np.number]).columns.tolist()`.
Crucially, lines 95-96 have already stored `iso_year` and `iso_week` as
`int` columns of `trend` before this runs, appended after the CSV's own
columns; so the runtime list is the source's numeric columns followed by
`iso_year` and `iso_week`, and it is never empty. (The model assumes the
source's column names are disjoint from the derived names, true of the
data set this script ships with.) -/
def numeric_cols (t : RawTrendTable) : List String :=
  csvNumericCols t ++ ["iso_year", "iso_week"]

/-- The trend table's column names, as far as the `"전체" in trend.columns`
test of line 99 is concerned (the runtime frame also has `date`, `iso_year`
and `iso_week`, none of which is the string `전체`). -/
def colNames (t : RawTrendTable) : List String := t.cols.map Prod.fst

/-- Line 99: `"전체" if "전체" in trend.columns else (numeric_cols[0] if
numeric_cols else None)`. Since `numeric_cols` always ends with the derived
`iso_year`/`iso_week` columns, the `None` branch is dead code. -/
def trend_metric_col (t : RawTrendTable) : Option String :=
  if "전체" ∈ colNames t then some "전체"
  else (numeric_cols t).head?

/-- Line 103's `.agg(trend_mean=(trend_metric_col, "mean"))` reads the metric
column off the runtime frame: the derived `iso_year`/`iso_week` columns hold
the ISO key of each row's date, a CSV numeric column holds its values, a CSV
text column makes the `"mean"` reduction raise (pandas `TypeError`), and a
missing column raises `KeyError`. -/
def getMetricValues (t : RawTrendTable) (tds : List Date) (c : String) :
    Except PipeError (List ℚ) :=
  if c == "iso_year" then .ok (tds.map fun d => ((isocalendar d).1 : ℚ))
  else if c == "iso_week" then .ok (tds.map fun d => ((isocalendar d).2 : ℚ))
  else
    match t.cols.find? fun col => col.1 == c with
    | some (_, .numeric vs) => .ok vs
    | some (_, .text _) =>
        .error (.dataShapeError ("could not aggregate non-numeric column " ++ c))
    | none => .error (.dataShapeError ("column " ++ c ++ " does not exist"))

/-- Lines 83-108 of `main`: load both tables, derive ISO week keys, aggregate
weekly, select the trend metric column and inner-join; returns the chosen
metric column name and the joined table. Errors are uncaught exceptions, in
the order the script hits them. -/
def stage1 (rv : RawReviewTable) (tr : RawTrendTable) :
    Except PipeError (String × List MergedRow) := do
  let rds ← parseDates rv.atCol
  let reviewRows := List.zipWith (fun d s => ReviewRow.mk d s) rds rv.scoreCol
  let tds ← parseDates tr.dateCol
  let mcol ← match trend_metric_col tr with
    | some c => Except.ok c
    | none => Except.error (.dataShapeError
        "no numeric trend metric column: cannot aggregate column None")
  let mvals ← getMetricValues tr tds mcol
  let trendRows := List.zipWith (fun d v => TrendRow.mk d v) tds mvals
  Except.ok (mcol, merged (weekly_reviews reviewRows) (weekly_trend trendRows))

/-- The two series handed to the correlation calls on lines 111-112:
`merged["trend_mean"]` and `merged["avg_score"]` (a missing mean is NaN). -/
def seriesOf (m : List MergedRow) : List (ℚ × Option ℚ) :=
  m.map fun r => (r.trend_mean, r.avg_score)

/-- Lines 110-112, the statistics step: `pearsonr` raises `ValueError` on
fewer than 2 observations; a NaN anywhere in the input propagates to a NaN
result; otherwise both coefficients are computed. There is no guard around
the call and no inspection of the results afterwards. -/
def statsStep (l : List (ℚ × Option ℚ)) :
    Except PipeError (CorrVal × CorrVal) :=
  if l.length < 2 then
    .error (.statsError "x and y must have length at least 2")
  else if l.any fun p => p.2.isNone then .ok (.nan, .nan)
  else
    let m := l.filterMap fun p => p.2.map fun y => (p.1, y)
    .ok (corrCore m, spearmanrQ m)

/-- The text of the PDF summary table's data cell (line 170), which
interpolates the chosen metric column name. -/
def summaryRowText (c : String) : String :=
  "리뷰 130K+ (score, at, content) / 주별 트렌드 지수(‘" ++ c ++ "’ 기준)"

/-- The data-dependent parts of the generated PDF: the surfaced metric column
name (line 170 and the chart labels) and the two correlation results
interpolated verbatim into the statistics table (lines 206-207). -/
structure ReportDoc where
  metricColName : String
  summaryDataCell : String
  pearsonCell : CorrVal
  spearmanCell : CorrVal
  deriving DecidableEq, Repr

/-- Lines 145-272: the document is built from the chosen column name and the
statistics exactly as computed — no check for NaN anywhere. -/
def buildDoc (mcol : String) (stats : CorrVal × CorrVal) : ReportDoc :=
  { metricColName := mcol
    summaryDataCell := summaryRowText mcol
    pearsonCell := stats.1
    spearmanCell := stats.2 }

/-- The whole of `main` as far as data is concerned: aggregation and join,
then statistics, then the document. An `Except.error` is an uncaught Python
exception killing the process (there is no handler anywhere in `main`). -/
def mainModel (rv : RawReviewTable) (tr : RawTrendTable) :
    Except PipeError ReportDoc := do
  let (mcol, m) ← stage1 rv tr
  let stats ← statsStep (seriesOf m)
  Except.ok (buildDoc mcol stats)

/- ### The reportlab font resolver (lines 61-71) -/

/-- The fixed candidate list of lines 62-66. -/
def ttf_candidates : List String :=
  ["/usr/share/fonts/truetype/nanum/NanumGothic.ttf",
   "/usr/share/fonts/truetype/nanum/NanumGothicBold.ttf",
   "/usr/share/fonts/truetype/noto/NotoSansCJK-Regular.ttc"]

/-- The loop of lines 67-71 over a candidate list: the first path for which
`os.path.exists` holds is registered under the alias `KFont` via
`pdfmetrics.registerFont` and `KFont` is returned; if the loop falls through,
nothing is registered and `Helvetica` is returned. The first component
collects the `(alias, path)` registrations performed. -/
def registerFirst (pathExists : String → Bool) :
    List String → List (String × String) × String
  | [] => ([], "Helvetica")
  | p :: rest =>
      if pathExists p then ([("KFont", p)], "KFont")
      else registerFirst pathExists rest

/-- `register_korean_font_reportlab`, parameterised by the file system (the
`os.path.exists` oracle). -/
def register_korean_font_reportlab (pathExists : String → Bool) :
    List (String × String) × String :=
  registerFirst pathExists ttf_candidates

/- ### Supporting lemmas -/

/-- The loop of lines 67-71, characterised through `List.find?`: it registers
and returns `KFont` for the first existing candidate, else falls back. -/
theorem registerFirst_eq_find (pathExists : String → Bool) (l : List String) :
    registerFirst pathExists l =
      match l.find? pathExists with
      | some p => ([("KFont", p)], "KFont")
      | none => ([], "Helvetica") := by
  induction l with
  | nil => rfl
  | cons p rest ih =>
    by_cases h : pathExists p
    · simp [registerFirst, h, List.find?_cons_of_pos]
    · have hf : List.find? pathExists (p :: rest) =
          List.find? pathExists rest := by
        simp [List.find?, Bool.eq_false_iff.mpr h]
      simp only [registerFirst, if_neg h, ih, hf]

/- ### The claims -/

/-- C5: review rows [(2024-01-03, score=5), (2024-01-04, score=3)] and trend
rows [(2024-01-03, metric=10), (2024-01-04, metric=20)] all fall in ISO week
(2024, 1); the weekly review aggregate has mean score 4.0 and count 2, the
weekly trend aggregate has mean 15.0, and the joined table is exactly one row
{year=2024, week=1, avg_score=4.0, review_count=2, trend_mean=15.0,
week_index=202401}. -/
theorem claim_C5_scenario :
    (scenarioReviews.map reviewKey = [(2024, 1), (2024, 1)] ∧
     scenarioTrend.map trendKey = [(2024, 1), (2024, 1)]) ∧
    weekly_reviews scenarioReviews = [⟨2024, 1, some 4, 2⟩] ∧
    weekly_trend scenarioTrend = [⟨2024, 1, 15⟩] ∧
    merged (weekly_reviews scenarioReviews) (weekly_trend scenarioTrend) =
      [⟨2024, 1, some 4, 2, 15, 202401⟩] := by
  refine ⟨by decide, ?_, ?_, ?_⟩ <;>
  · simp [merged, weekly_reviews, weekly_trend, scenarioReviews, scenarioTrend,
      groupKeys, sortKeys, insertKey, meanOpt, weekIndex,
      scenarioReviewKeys.1, scenarioReviewKeys.2,
      scenarioTrendKeys.1, scenarioTrendKeys.2, List.find?]
    norm_num

/-- C6: the week-index encoding `year*100 + week` (line 108) is strictly
monotone in chronological order as long as week numbers stay in [1, 53]:
an earlier (year, week) pair — smaller year, or equal year and smaller
week — gets a strictly smaller index, across year boundaries included. -/
theorem claim_C6_week_index_monotone (y1 w1 y2 w2 : ℕ)
    (hw1 : 1 ≤ w1 ∧ w1 ≤ 53) (hw2 : 1 ≤ w2 ∧ w2 ≤ 53)
    (hchron : y1 < y2 ∨ (y1 = y2 ∧ w1 < w2)) :
    weekIndex y1 w1 < weekIndex y2 w2 := by
  simp only [weekIndex]
  omega

/-- Witness for C6 at a year boundary: week 52 of 2024 is encoded strictly
below week 1 of 2025. -/
theorem claim_C6_witness :
    (1 ≤ 52 ∧ 52 ≤ 53) ∧ (1 ≤ 1 ∧ 1 ≤ 53) ∧
    weekIndex 2024 52 < weekIndex 2025 1 :=
  ⟨by decide, by decide,
    claim_C6_week_index_monotone 2024 52 2025 1 (by decide) (by decide)
      (Or.inl (by decide))⟩

/-- C8: the PDF-renderer font resolver checks the fixed candidate paths in
order, registers the first existing file under the fixed alias `KFont` and
returns that alias; if none of the files exists it performs no registration
and returns the built-in default `Helvetica`. -/
theorem claim_C8_font_resolver (pathExists : String → Bool) :
    ttf_candidates =
      ["/usr/share/fonts/truetype/nanum/NanumGothic.ttf",
       "/usr/share/fonts/truetype/nanum/NanumGothicBold.ttf",
       "/usr/share/fonts/truetype/noto/NotoSansCJK-Regular.ttc"] ∧
    (∀ p, ttf_candidates.find? pathExists = some p →
      register_korean_font_reportlab pathExists = ([("KFont", p)], "KFont")) ∧
    (ttf_candidates.find? pathExists = none →
      register_korean_font_reportlab pathExists = ([], "Helvetica")) := by
  refine ⟨rfl, ?_, ?_⟩
  · intro p hp
    rw [register_korean_font_reportlab, registerFirst_eq_find, hp]
  · intro hp
    rw [register_korean_font_reportlab, registerFirst_eq_find, hp]

/-- Witness for C8: on a file system where only the second candidate exists,
that file is registered under `KFont`; on an empty file system nothing is
registered and `Helvetica` comes back. -/
theorem claim_C8_witness :
    (ttf_candidates.find?
        (· == "/usr/share/fonts/truetype/nanum/NanumGothicBold.ttf") =
      some "/usr/share/fonts/truetype/nanum/NanumGothicBold.ttf" ∧
     register_korean_font_reportlab
        (· == "/usr/share/fonts/truetype/nanum/NanumGothicBold.ttf") =
      ([("KFont", "/usr/share/fonts/truetype/nanum/NanumGothicBold.ttf")],
        "KFont")) ∧
    (ttf_candidates.find? (fun _ => false) = none ∧
     register_korean_font_reportlab (fun _ => false) = ([], "Helvetica")) :=
  ⟨⟨by decide,
    (claim_C8_font_resolver _).2.1 _ (by decide)⟩,
   ⟨by decide,
    (claim_C8_font_resolver _).2.2 (by decide)⟩⟩

/-- C9: the year of the weekly key is the ISO week-based year of
`isocalendar()`, not the calendar year: both group keys are literally
`isocalendar` of the row's date, 2021-01-01 is bucketed under week 53 of ISO
year 2020, and 2024-12-30 under week 1 of ISO year 2025. -/
theorem claim_C9_iso_year_key :
    (∀ r : ReviewRow, reviewKey r = isocalendar r.atTime) ∧
    (∀ t : TrendRow, trendKey t = isocalendar t.date) ∧
    (isocalendar ⟨2021, 1, 1⟩ = (2020, 53) ∧ (2020 : ℕ) ≠ 2021) ∧
    (isocalendar ⟨2024, 12, 30⟩ = (2025, 1) ∧ (2025 : ℕ) ≠ 2024) :=
  ⟨fun _ => rfl, fun _ => rfl, ⟨by decide, by decide⟩, ⟨by decide, by decide⟩⟩

/- ### The inner join (claim C2) -/

/-- The `(iso_year, iso_week)` keys of a weekly review aggregate. -/
def reviewAggKeys (l : List WeeklyReviewRow) : List (ℕ × ℕ) :=
  l.map fun a => (a.iso_year, a.iso_week)

/-- The `(iso_year, iso_week)` keys of a weekly trend aggregate. -/
def trendAggKeys (l : List WeeklyTrendRow) : List (ℕ × ℕ) :=
  l.map fun b => (b.iso_year, b.iso_week)

/-- The `(iso_year, iso_week)` keys of a joined table. -/
def mergedKeys (l : List MergedRow) : List (ℕ × ℕ) :=
  l.map fun r => (r.iso_year, r.iso_week)

theorem merged_pred_iff (a : WeeklyReviewRow) (b : WeeklyTrendRow) :
    (b.iso_year == a.iso_year && b.iso_week == a.iso_week) = true ↔
      (b.iso_year, b.iso_week) = (a.iso_year, a.iso_week) := by
  simp [Prod.ext_iff]

theorem mergedKeys_mem (wr : List WeeklyReviewRow) (wt : List WeeklyTrendRow)
    (k : ℕ × ℕ) :
    k ∈ mergedKeys (merged wr wt) ↔
      k ∈ reviewAggKeys wr ∧ k ∈ trendAggKeys wt := by
  constructor
  · intro hk
    obtain ⟨r, hr, hrk⟩ := List.mem_map.mp hk
    obtain ⟨a, ha, hfa⟩ := List.mem_filterMap.mp hr
    obtain ⟨b, hfind, hab⟩ := Option.map_eq_some'.mp hfa
    have hkey : r.iso_year = a.iso_year ∧ r.iso_week = a.iso_week := by
      rw [← hab]; exact ⟨rfl, rfl⟩
    have hb : b ∈ wt := List.mem_of_find?_eq_some hfind
    have hpb := List.find?_some hfind
    rw [merged_pred_iff] at hpb
    constructor
    · exact List.mem_map.mpr ⟨a, ha, by rw [← hrk, hkey.1, hkey.2]⟩
    · exact List.mem_map.mpr ⟨b, hb, by rw [hpb, ← hrk, hkey.1, hkey.2]⟩
  · rintro ⟨hka, hkb⟩
    obtain ⟨a, ha, hak⟩ := List.mem_map.mp hka
    obtain ⟨b, hb, hbk⟩ := List.mem_map.mp hkb
    have hsome : (wt.find? fun b =>
        b.iso_year == a.iso_year && b.iso_week == a.iso_week).isSome := by
      rw [List.find?_isSome]
      exact ⟨b, hb, (merged_pred_iff a b).mpr (by rw [hbk, hak])⟩
    obtain ⟨b', hb'⟩ := Option.isSome_iff_exists.mp hsome
    apply List.mem_map.mpr
    refine ⟨{ iso_year := a.iso_year, iso_week := a.iso_week,
              avg_score := a.avg_score, review_count := a.review_count,
              trend_mean := b'.trend_mean,
              week_index := weekIndex a.iso_year a.iso_week }, ?_, hak⟩
    exact List.mem_filterMap.mpr ⟨a, ha, by rw [hb']; rfl⟩

theorem merged_length_eq (wr : List WeeklyReviewRow) (wt : List WeeklyTrendRow)
    (hr : (reviewAggKeys wr).Nodup) :
    (merged wr wt).length =
      ((reviewAggKeys wr).toFinset ∩ (trendAggKeys wt).toFinset).card := by
  induction wr with
  | nil => simp [merged, reviewAggKeys]
  | cons a wr ih =>
    have hr' : (reviewAggKeys wr).Nodup := (List.nodup_cons.mp hr).2
    have hnk : (a.iso_year, a.iso_week) ∉ reviewAggKeys wr :=
      (List.nodup_cons.mp hr).1
    have hstep : reviewAggKeys (a :: wr) =
        (a.iso_year, a.iso_week) :: reviewAggKeys wr := rfl
    cases hfind : wt.find? fun b =>
        b.iso_year == a.iso_year && b.iso_week == a.iso_week with
    | some b =>
      have hb : b ∈ wt := List.mem_of_find?_eq_some hfind
      have hpb := List.find?_some hfind
      rw [merged_pred_iff] at hpb
      have hkt : (a.iso_year, a.iso_week) ∈ (trendAggKeys wt).toFinset := by
        rw [List.mem_toFinset]
        exact List.mem_map.mpr ⟨b, hb, hpb⟩
      have : merged (a :: wr) wt =
          { iso_year := a.iso_year, iso_week := a.iso_week,
            avg_score := a.avg_score, review_count := a.review_count,
            trend_mean := b.trend_mean,
            week_index := weekIndex a.iso_year a.iso_week } ::
            merged wr wt := by
        simp [merged, List.filterMap_cons, hfind]
      rw [this, hstep]
      simp only [List.length_cons, List.toFinset_cons]
      rw [Finset.insert_inter_of_mem hkt,
        Finset.card_insert_of_not_mem (by
          simp only [Finset.mem_inter, List.mem_toFinset]
          exact fun h => hnk h.1),
        ih hr']
    | none =>
      have hkt : (a.iso_year, a.iso_week) ∉ (trendAggKeys wt).toFinset := by
        rw [List.mem_toFinset]
        intro hmem
        obtain ⟨b, hb, hbk⟩ := List.mem_map.mp hmem
        have := List.find?_eq_none.mp hfind b hb
        exact this ((merged_pred_iff a b).mpr hbk)
      have : merged (a :: wr) wt = merged wr wt := by
        simp [merged, List.filterMap_cons, hfind]
      rw [this, hstep]
      simp only [List.toFinset_cons]
      rw [Finset.insert_inter_of_not_mem hkt, ih hr']

/-- C2: the join of line 107 is an inner join on `(iso_year, iso_week)`: over
weekly aggregate tables (one row per key on each side, as `groupby` produces),
the joined table's row count is the number of keys present in both inputs,
and a key appears in the joined output exactly when it appears in both
inputs. -/
theorem claim_C2_inner_join (wr : List WeeklyReviewRow)
    (wt : List WeeklyTrendRow)
    (hr : (reviewAggKeys wr).Nodup) (_ht : (trendAggKeys wt).Nodup) :
    (merged wr wt).length =
      ((reviewAggKeys wr).toFinset ∩ (trendAggKeys wt).toFinset).card ∧
    ∀ k, k ∈ mergedKeys (merged wr wt) ↔
      k ∈ reviewAggKeys wr ∧ k ∈ trendAggKeys wt :=
  ⟨merged_length_eq wr wt hr, fun k => mergedKeys_mem wr wt k⟩

/-- A small weekly review aggregate overlapping the trend aggregate below in
exactly one week. -/
def demoWR : List WeeklyReviewRow :=
  [⟨2024, 1, some 4, 2⟩, ⟨2024, 2, some 3, 5⟩]

/-- A small weekly trend aggregate; only week (2024, 2) also has reviews. -/
def demoWT : List WeeklyTrendRow :=
  [⟨2024, 2, 15⟩, ⟨2024, 3, 20⟩]

/-- Witness for C2 on a one-week overlap: both hypotheses hold and the
conclusion follows by the theorem. -/
theorem claim_C2_witness :
    ((reviewAggKeys demoWR).Nodup ∧ (trendAggKeys demoWT).Nodup) ∧
    ((merged demoWR demoWT).length =
      ((reviewAggKeys demoWR).toFinset ∩ (trendAggKeys demoWT).toFinset).card ∧
    ∀ k, k ∈ mergedKeys (merged demoWR demoWT) ↔
      k ∈ reviewAggKeys demoWR ∧ k ∈ trendAggKeys demoWT) :=
  ⟨⟨by decide, by decide⟩,
    claim_C2_inner_join demoWR demoWT (by decide) (by decide)⟩

/- ### Counting vs averaging (claim C10) -/

/-- Two review rows in the same ISO week, one with a missing score cell. -/
def demoMissingScores : List ReviewRow :=
  [⟨⟨2024, 1, 3⟩, some 5⟩, ⟨⟨2024, 1, 4⟩, none⟩]

/-- C10: in every weekly review aggregate row, `review_count` is the number of
review rows of that ISO week (the `"size"` reducer counts rows with missing
scores too) while `avg_score` is the mean over only the non-missing scores of
those rows; the number of values averaged never exceeds `review_count`, and on
the two-row example with one missing score the count is 2 while only one value
is averaged. -/
theorem claim_C10_size_vs_mean :
    (∀ rows : List ReviewRow, ∀ g ∈ weekly_reviews rows,
      g.review_count =
        (rows.filter fun r => reviewKey r = (g.iso_year, g.iso_week)).length ∧
      g.avg_score =
        meanOpt ((rows.filter fun r =>
          reviewKey r = (g.iso_year, g.iso_week)).filterMap (·.score)) ∧
      ((rows.filter fun r =>
          reviewKey r = (g.iso_year, g.iso_week)).filterMap (·.score)).length ≤
        g.review_count) ∧
    (weekly_reviews demoMissingScores = [⟨2024, 1, some 5, 2⟩] ∧
     ((demoMissingScores.filter fun r =>
        reviewKey r = (2024, 1)).filterMap (·.score)).length = 1) := by
  constructor
  · intro rows g hg
    obtain ⟨k, hk, rfl⟩ := List.mem_map.mp hg
    refine ⟨rfl, rfl, ?_⟩
    exact List.length_filterMap_le _ _
  · constructor
    · have k1 : reviewKey ⟨⟨2024, 1, 3⟩, some 5⟩ = (2024, 1) := by decide
      have k2 : reviewKey ⟨⟨2024, 1, 4⟩, none⟩ = (2024, 1) := by decide
      simp [weekly_reviews, demoMissingScores, groupKeys, sortKeys, insertKey,
        meanOpt, k1, k2]
    · decide

/-- The aggregate row produced from `demoMissingScores`. -/
def demoAggRow : WeeklyReviewRow := ⟨2024, 1, some 5, 2⟩

/-- Witness for C10: the aggregate row of the missing-score example satisfies
the counting/averaging characterisation (count 2, one value averaged). -/
theorem claim_C10_witness :
    demoAggRow ∈ weekly_reviews demoMissingScores ∧
    (demoAggRow.review_count =
      (demoMissingScores.filter fun r =>
        reviewKey r = (demoAggRow.iso_year, demoAggRow.iso_week)).length ∧
     demoAggRow.avg_score =
      meanOpt ((demoMissingScores.filter fun r =>
        reviewKey r = (demoAggRow.iso_year, demoAggRow.iso_week)).filterMap
          (·.score)) ∧
     ((demoMissingScores.filter fun r =>
        reviewKey r = (demoAggRow.iso_year, demoAggRow.iso_week)).filterMap
          (·.score)).length ≤ demoAggRow.review_count) := by
  have hmem : demoAggRow ∈ weekly_reviews demoMissingScores := by
    rw [claim_C10_size_vs_mean.2.1]
    exact List.mem_singleton.mpr rfl
  exact ⟨hmem, claim_C10_size_vs_mean.1 demoMissingScores demoAggRow hmem⟩

/- ### Inverting the pipeline's monadic structure -/

theorem parseDates_error_of_mem (l : List RawDate) (s : String)
    (h : RawDate.unparseable s ∈ l) :
    ∃ msg, parseDates l = .error (.parseError msg) := by
  induction l with
  | nil => cases h
  | cons d rest ih =>
    cases d with
    | unparseable t => exact ⟨"could not parse " ++ t, rfl⟩
    | parsed dd =>
      have h' : RawDate.unparseable s ∈ rest := by
        cases h with
        | tail _ hmem => exact hmem
      obtain ⟨msg, hm⟩ := ih h'
      exact ⟨msg, by simp [parseDates, hm, Except.map]⟩

theorem stage1_ok_inv (rv : RawReviewTable) (tr : RawTrendTable)
    (mcol : String) (m : List MergedRow)
    (h : stage1 rv tr = .ok (mcol, m)) :
    trend_metric_col tr = some mcol := by
  unfold stage1 at h
  cases h1 : parseDates rv.atCol with
  | error e => rw [h1] at h; simp [Bind.bind, Except.bind] at h
  | ok rds =>
    rw [h1] at h
    cases h2 : parseDates tr.dateCol with
    | error e => rw [h2] at h; simp [Bind.bind, Except.bind] at h
    | ok tds =>
      rw [h2] at h
      cases h3 : trend_metric_col tr with
      | none => rw [h3] at h; simp [Bind.bind, Except.bind] at h
      | some c =>
        rw [h3] at h
        simp only [Bind.bind, Except.bind] at h
        cases h4 : getMetricValues tr tds c with
        | error e => rw [h4] at h; simp [Except.bind] at h
        | ok vs =>
          rw [h4] at h
          simp only [Except.bind, Except.ok.injEq, Prod.mk.injEq] at h
          rw [h.1]

theorem mainModel_ok_inv (rv : RawReviewTable) (tr : RawTrendTable)
    (doc : ReportDoc) (h : mainModel rv tr = .ok doc) :
    ∃ mcol m, stage1 rv tr = .ok (mcol, m) ∧
      statsStep (seriesOf m) = .ok (doc.pearsonCell, doc.spearmanCell) ∧
      doc = buildDoc mcol (doc.pearsonCell, doc.spearmanCell) := by
  unfold mainModel at h
  cases h1 : stage1 rv tr with
  | error e => rw [h1] at h; simp [Bind.bind, Except.bind] at h
  | ok p =>
    obtain ⟨mcol, m⟩ := p
    rw [h1] at h
    simp only [Bind.bind, Except.bind] at h
    cases h2 : statsStep (seriesOf m) with
    | error e => rw [h2] at h; simp [Except.bind] at h
    | ok stats =>
      rw [h2] at h
      simp only [Except.bind, Except.ok.injEq] at h
      refine ⟨mcol, m, rfl, ?_, ?_⟩
      · rw [← h, h2]
        cases stats
        rfl
      · rw [← h]
        rfl

theorem mainModel_error_of_stage1 (rv : RawReviewTable) (tr : RawTrendTable)
    (e : PipeError) (h : stage1 rv tr = .error e) :
    mainModel rv tr = .error e := by
  unfold mainModel
  rw [h]
  rfl

/-- C3: the trend metric column (lines 98-99) is selected deterministically
by name-presence policy: the preferred column `전체` whenever present, else
the first numeric column of the frame at line 98. That frame's numeric
columns are the source's numeric columns followed by the derived
`iso_year`/`iso_week` int keys added on lines 95-96, so a column is always
chosen — when the source has no numeric column and no `전체`, the fallback
is the derived `iso_year`. The chosen name is surfaced into the report: the
summary cell of line 170 interpolates it. -/
theorem claim_C3_metric_col_policy (t : RawTrendTable) :
    ("전체" ∈ colNames t → trend_metric_col t = some "전체") ∧
    ("전체" ∉ colNames t →
      trend_metric_col t = (numeric_cols t).head? ∧
      (∀ c cs, csvNumericCols t = c :: cs → trend_metric_col t = some c) ∧
      (csvNumericCols t = [] → trend_metric_col t = some "iso_year")) ∧
    (∀ rv doc, mainModel rv t = Except.ok doc →
      trend_metric_col t = some doc.metricColName ∧
      doc.summaryDataCell =
        "리뷰 130K+ (score, at, content) / 주별 트렌드 지수(‘" ++
          doc.metricColName ++ "’ 기준)") := by
  refine ⟨?_, ?_, ?_⟩
  · intro hmem
    simp [trend_metric_col, hmem]
  · intro hmem
    refine ⟨by simp [trend_metric_col, hmem], ?_, ?_⟩
    · intro c cs hc
      simp [trend_metric_col, hmem, numeric_cols, hc]
    · intro hc
      simp [trend_metric_col, hmem, numeric_cols, hc]
  · intro rv doc hok
    obtain ⟨mcol, m, hs1, _, hdoc⟩ := mainModel_ok_inv rv t doc hok
    have hm := stage1_ok_inv rv t mcol m hs1
    have h1 : doc.metricColName = mcol := by rw [hdoc]; rfl
    have h2 : doc.summaryDataCell = summaryRowText mcol := by rw [hdoc]; rfl
    rw [h1, h2, hm]
    exact ⟨rfl, rfl⟩

theorem statsStep_error_shape (l : List (ℚ × Option ℚ)) (e : PipeError)
    (h : statsStep l = .error e) :
    e = .statsError "x and y must have length at least 2" := by
  unfold statsStep at h
  split at h
  · exact (Except.error.inj h).symm
  · split at h
    · simp at h
    · simp at h

theorem mainModel_no_dataShape_of_stage1_ok (rv : RawReviewTable)
    (tr : RawTrendTable) (mcol : String) (m : List MergedRow)
    (h : stage1 rv tr = .ok (mcol, m)) :
    ∀ e, mainModel rv tr ≠ .error (.dataShapeError e) := by
  intro e hcontra
  unfold mainModel at hcontra
  rw [h] at hcontra
  simp only [Bind.bind, Except.bind] at hcontra
  cases hst : statsStep (seriesOf m) with
  | error e2 =>
    rw [hst] at hcontra
    rw [statsStep_error_shape _ _ hst] at hcontra
    simp at hcontra
  | ok stats =>
    rw [hst] at hcontra
    simp at hcontra

/-- C4 (amended): parse errors are fatal and unrecovered — an unparseable
timestamp in the review source or an unparseable date in the trend source
kills the run with an uncaught parse error. But "no numeric column → 
data-shape error" is not how the code behaves: `iso_year`/`iso_week` are
stored as int columns (lines 95-96) before line 98 collects numeric columns,
so the numeric-column list is never empty; when `전체` is absent and the
source has no numeric column, the pipeline silently selects `iso_year` as
the metric and no data-shape error can occur. The one real data-shape error
path is a `전체` column that exists but is non-numeric, which makes the
`"mean"` aggregation raise. An `Except.error` is an uncaught Python
exception: `main` has no `try/except` around data steps, so the error IS
the process-exit outcome. -/
theorem claim_C4_fatal_data_errors (rv : RawReviewTable) (tr : RawTrendTable) :
    (∀ s, RawDate.unparseable s ∈ rv.atCol →
      ∃ msg, mainModel rv tr = .error (.parseError msg)) ∧
    (∀ s rds, parseDates rv.atCol = .ok rds →
      RawDate.unparseable s ∈ tr.dateCol →
      ∃ msg, mainModel rv tr = .error (.parseError msg)) ∧
    (∀ rds tds vs, parseDates rv.atCol = .ok rds →
      parseDates tr.dateCol = .ok tds →
      tr.cols.find? (fun col => col.1 == "전체") =
        some ("전체", ColValues.text vs) →
      mainModel rv tr = .error (.dataShapeError
        ("could not aggregate non-numeric column " ++ "전체"))) ∧
    (∀ rds tds, parseDates rv.atCol = .ok rds →
      parseDates tr.dateCol = .ok tds →
      csvNumericCols tr = [] → "전체" ∉ colNames tr →
      trend_metric_col tr = some "iso_year" ∧
      ∀ e, mainModel rv tr ≠ .error (.dataShapeError e)) := by
  refine ⟨?_, ?_, ?_, ?_⟩
  · intro s hmem
    obtain ⟨msg, hm⟩ := parseDates_error_of_mem _ s hmem
    refine ⟨msg, mainModel_error_of_stage1 _ _ _ ?_⟩
    unfold stage1
    rw [hm]
    rfl
  · intro s rds hrv hmem
    obtain ⟨msg, hm⟩ := parseDates_error_of_mem _ s hmem
    refine ⟨msg, mainModel_error_of_stage1 _ _ _ ?_⟩
    unfold stage1
    rw [hrv, hm]
    rfl
  · intro rds tds vs hrv htd hfind
    have hall : "전체" ∈ colNames tr := by
      have hmem := List.mem_of_find?_eq_some hfind
      exact List.mem_map.mpr ⟨_, hmem, rfl⟩
    have hmc : trend_metric_col tr = some "전체" := by
      simp [trend_metric_col, hall]
    have hget : getMetricValues tr tds "전체" = .error (.dataShapeError
        ("could not aggregate non-numeric column " ++ "전체")) := by
      unfold getMetricValues
      rw [if_neg (by decide), if_neg (by decide), hfind]
    apply mainModel_error_of_stage1
    unfold stage1
    rw [hrv, htd]
    simp only [Bind.bind, Except.bind]
    rw [hmc]
    simp only [Except.bind]
    rw [hget]
  · intro rds tds hrv htd hcsv hall
    have hmc : trend_metric_col tr = some "iso_year" := by
      simp [trend_metric_col, hall, numeric_cols, hcsv]
    refine ⟨hmc, ?_⟩
    have hget : getMetricValues tr tds "iso_year" =
        .ok (tds.map fun d => ((isocalendar d).1 : ℚ)) := by
      unfold getMetricValues
      rw [if_pos (by decide)]
    have hs1 : stage1 rv tr = .ok ("iso_year",
        merged
          (weekly_reviews
            (List.zipWith (fun d s => ReviewRow.mk d s) rds rv.scoreCol))
          (weekly_trend (List.zipWith (fun d v => TrendRow.mk d v) tds
            (tds.map fun d => ((isocalendar d).1 : ℚ))))) := by
      unfold stage1
      rw [hrv, htd]
      simp only [Bind.bind, Except.bind]
      rw [hmc]
      simp only [Except.bind]
      rw [hget]
    exact mainModel_no_dataShape_of_stage1_ok rv tr _ _ hs1

/- ### A concrete two-week run of the pipeline -/

/-- Raw review table spanning ISO weeks (2024,1) and (2024,2). -/
def demo2Reviews : RawReviewTable :=
  ⟨[.parsed ⟨2024, 1, 3⟩, .parsed ⟨2024, 1, 10⟩], [some 5, some 3]⟩

/-- Raw trend table over the same two weeks, metric column `전체`. -/
def demo2Trend : RawTrendTable :=
  ⟨[.parsed ⟨2024, 1, 3⟩, .parsed ⟨2024, 1, 10⟩], [("전체", .numeric [10, 20])]⟩

/-- The joined table of the two-week run. -/
def demo2Merged : List MergedRow :=
  [⟨2024, 1, some 5, 1, 10, 202401⟩, ⟨2024, 2, some 3, 1, 20, 202402⟩]

theorem iso_jan3 : isocalendar ⟨2024, 1, 3⟩ = (2024, 1) := by decide
theorem iso_jan10 : isocalendar ⟨2024, 1, 10⟩ = (2024, 2) := by decide

theorem stage1_demo2 :
    stage1 demo2Reviews demo2Trend = .ok ("전체", demo2Merged) := by
  unfold stage1
  simp +decide [demo2Reviews, demo2Trend, demo2Merged, parseDates, Except.map,
    Bind.bind, Except.bind, trend_metric_col, colNames, numeric_cols,
    getMetricValues, List.find?, merged, weekly_reviews, weekly_trend,
    groupKeys, sortKeys, insertKey, keyLe, meanOpt, weekIndex,
    reviewKey, trendKey, iso_jan3, iso_jan10]

theorem statsStep_demo2 :
    statsStep (seriesOf demo2Merged) =
      .ok (.val (-20) 400 2, .val (-1) 1 2) := by
  simp +decide [seriesOf, demo2Merged, statsStep, corrCore, svar, scov,
    spearmanrQ, rankPairs, rankVal, List.countP_cons]
  norm_num

theorem mainModel_demo2 :
    mainModel demo2Reviews demo2Trend =
      .ok ⟨"전체", summaryRowText "전체", .val (-20) 400 2, .val (-1) 1 2⟩ := by
  unfold mainModel
  rw [stage1_demo2]
  simp only [Bind.bind, Except.bind]
  rw [statsStep_demo2]
  rfl

/-- A trend source with no numeric column at all and no `전체` column. -/
def textOnlyTrend : RawTrendTable :=
  ⟨[.parsed ⟨2024, 1, 3⟩, .parsed ⟨2024, 1, 10⟩], [("메모", .text ["a", "b"])]⟩

/-- The joined table of the run on `textOnlyTrend`: the silently selected
`iso_year` metric is 2024 in both weeks. -/
def textOnlyMerged : List MergedRow :=
  [⟨2024, 1, some 5, 1, 2024, 202401⟩, ⟨2024, 2, some 3, 1, 2024, 202402⟩]

theorem stage1_textOnly :
    stage1 demo2Reviews textOnlyTrend = .ok ("iso_year", textOnlyMerged) := by
  unfold stage1
  simp +decide [demo2Reviews, textOnlyTrend, textOnlyMerged, parseDates,
    Except.map, Bind.bind, Except.bind, trend_metric_col, colNames,
    numeric_cols, csvNumericCols, getMetricValues, List.find?, merged,
    weekly_reviews, weekly_trend, groupKeys, sortKeys, insertKey, keyLe,
    meanOpt, weekIndex, reviewKey, trendKey, iso_jan3, iso_jan10]

theorem statsStep_textOnly :
    statsStep (seriesOf textOnlyMerged) = .ok (.nan, .nan) := by
  simp +decide [seriesOf, textOnlyMerged, statsStep, corrCore, svar, scov,
    spearmanrQ, rankPairs, rankVal, List.countP_cons]
  norm_num

theorem mainModel_textOnly :
    mainModel demo2Reviews textOnlyTrend =
      .ok ⟨"iso_year", summaryRowText "iso_year", .nan, .nan⟩ := by
  unfold mainModel
  rw [stage1_textOnly]
  simp only [Bind.bind, Except.bind]
  rw [statsStep_textOnly]
  rfl

/-- Witness for C3: the two-week run selects `전체` when it is present and
surfaces it in the document's summary cell; on a trend source with no
numeric column and no `전체`, selection still succeeds, falling back to the
derived `iso_year` column. -/
theorem claim_C3_witness :
    ("전체" ∈ colNames demo2Trend ∧
     trend_metric_col demo2Trend = some "전체") ∧
    ("전체" ∉ colNames textOnlyTrend ∧ csvNumericCols textOnlyTrend = [] ∧
     trend_metric_col textOnlyTrend = some "iso_year") ∧
    (trend_metric_col demo2Trend =
      some (ReportDoc.mk "전체" (summaryRowText "전체")
        (.val (-20) 400 2) (.val (-1) 1 2)).metricColName ∧
     (ReportDoc.mk "전체" (summaryRowText "전체")
        (.val (-20) 400 2) (.val (-1) 1 2)).summaryDataCell =
      "리뷰 130K+ (score, at, content) / 주별 트렌드 지수(‘" ++
        (ReportDoc.mk "전체" (summaryRowText "전체")
          (.val (-20) 400 2) (.val (-1) 1 2)).metricColName ++ "’ 기준)") :=
  ⟨⟨by decide, (claim_C3_metric_col_policy demo2Trend).1 (by decide)⟩,
   ⟨by decide, rfl,
    ((claim_C3_metric_col_policy textOnlyTrend).2.1 (by decide)).2.2 rfl⟩,
   (claim_C3_metric_col_policy demo2Trend).2.2 demo2Reviews _ mainModel_demo2⟩

/-- C4 as stated is partly false on the code: a trend source containing NO
numeric column (and no `전체`) does not make the pipeline fail with a
data-shape error. Lines 95-96 store `iso_year`/`iso_week` as int columns
before line 98 collects numeric columns, so the fallback of line 99 silently
selects `iso_year` and the run completes, building a document (here with NaN
statistics, the `iso_year` series being constant). -/
theorem claim_C4_counterexample :
    csvNumericCols textOnlyTrend = [] ∧ "전체" ∉ colNames textOnlyTrend ∧
    mainModel demo2Reviews textOnlyTrend =
      .ok ⟨"iso_year", summaryRowText "iso_year", .nan, .nan⟩ :=
  ⟨rfl, by decide, mainModel_textOnly⟩

/-- Witness for the amended C4: concrete parse failures on each source, a
present but non-numeric `전체` column raising the data-shape error, and a
numeric-column-free trend source on which the run cannot raise one. -/
theorem claim_C4_witness :
    (RawDate.unparseable "garbage" ∈
        (RawReviewTable.mk [.unparseable "garbage"] [some 5]).atCol ∧
     ∃ msg, mainModel (RawReviewTable.mk [.unparseable "garbage"] [some 5])
        demo2Trend = .error (.parseError msg)) ∧
    (∃ msg, mainModel demo2Reviews
        (RawTrendTable.mk [.unparseable "not-a-date"]
          [("전체", .numeric [10])]) = .error (.parseError msg)) ∧
    (mainModel demo2Reviews
        (RawTrendTable.mk [.parsed ⟨2024, 1, 3⟩] [("전체", .text ["hello"])]) =
      .error (.dataShapeError
        ("could not aggregate non-numeric column " ++ "전체"))) ∧
    (trend_metric_col textOnlyTrend = some "iso_year" ∧
     ∀ e, mainModel demo2Reviews textOnlyTrend ≠ .error (.dataShapeError e)) :=
  ⟨⟨by decide,
    (claim_C4_fatal_data_errors _ demo2Trend).1 "garbage" (by decide)⟩,
   (claim_C4_fatal_data_errors demo2Reviews _).2.1 "not-a-date"
      [⟨2024, 1, 3⟩, ⟨2024, 1, 10⟩] (by rfl) (by decide),
   (claim_C4_fatal_data_errors demo2Reviews _).2.2.1
      [⟨2024, 1, 3⟩, ⟨2024, 1, 10⟩] [⟨2024, 1, 3⟩] ["hello"]
      (by rfl) (by rfl) (by decide),
   (claim_C4_fatal_data_errors demo2Reviews textOnlyTrend).2.2.2
      [⟨2024, 1, 3⟩, ⟨2024, 1, 10⟩] [⟨2024, 1, 3⟩, ⟨2024, 1, 10⟩]
      (by rfl) (by rfl) rfl (by decide)⟩

/- ### Permutation invariance of the correlation computations (claim C7) -/

/-- A constant sequence (zero empirical variance). -/
def constList (l : List ℚ) : Prop := ∀ x ∈ l, ∀ y ∈ l, x = y

instance constList.dec (l : List ℚ) : Decidable (constList l) :=
  inferInstanceAs (Decidable (∀ x ∈ l, ∀ y ∈ l, x = y))

theorem svar_perm {l l' : List ℚ} (h : l.Perm l') : svar l = svar l' := by
  unfold svar
  rw [h.length_eq, (h.map fun x => x * x).sum_eq, h.sum_eq]

theorem scov_perm {l l' : List (ℚ × ℚ)} (h : l.Perm l') : scov l = scov l' := by
  unfold scov
  rw [h.length_eq, (h.map fun p => p.1 * p.2).sum_eq,
    (h.map Prod.fst).sum_eq, (h.map Prod.snd).sum_eq]

theorem corrCore_perm {l l' : List (ℚ × ℚ)} (h : l.Perm l') :
    corrCore l = corrCore l' := by
  unfold corrCore
  rw [svar_perm (h.map Prod.fst), svar_perm (h.map Prod.snd), scov_perm h,
    h.length_eq]

theorem rankVal_perm {m m' : List ℚ} (h : m.Perm m') (v : ℚ) :
    rankVal m v = rankVal m' v := by
  unfold rankVal
  rw [h.countP_eq, h.countP_eq]

theorem rankPairs_perm {l l' : List (ℚ × ℚ)} (h : l.Perm l') :
    (rankPairs l).Perm (rankPairs l') := by
  unfold rankPairs
  have hf : (fun p : ℚ × ℚ =>
      (rankVal (l.map Prod.fst) p.1, rankVal (l.map Prod.snd) p.2)) =
      fun p : ℚ × ℚ =>
        (rankVal (l'.map Prod.fst) p.1, rankVal (l'.map Prod.snd) p.2) := by
    funext p
    rw [rankVal_perm (h.map Prod.fst), rankVal_perm (h.map Prod.snd)]
  rw [hf]
  exact h.map _

theorem pearsonrQ_perm {l l' : List (ℚ × ℚ)} (h : l.Perm l') :
    pearsonrQ l = pearsonrQ l' := by
  unfold pearsonrQ
  rw [h.length_eq, corrCore_perm h]

theorem spearmanrQ_perm {l l' : List (ℚ × ℚ)} (h : l.Perm l') :
    spearmanrQ l = spearmanrQ l' := by
  unfold spearmanrQ
  rw [h.length_eq, corrCore_perm (rankPairs_perm h)]

/-- C7: on a valid joined table (at least 2 rows, neither series constant),
the Pearson and Spearman computations of lines 111-112 are deterministic pure
functions of the row multiset: applying the same permutation to both
sequences (= permuting the joined rows) changes none of the four result
scalars. `CorrVal` equality is equality of coefficient and p-value for each
test, so both pairs of scalars are covered. -/
theorem claim_C7_row_order_invariance (l l' : List (ℚ × ℚ)) (h : l.Perm l')
    (_h2 : 2 ≤ l.length)
    (_hx : ¬constList (l.map Prod.fst)) (_hy : ¬constList (l.map Prod.snd)) :
    pearsonrQ l = pearsonrQ l' ∧ spearmanrQ l = spearmanrQ l' :=
  ⟨pearsonrQ_perm h, spearmanrQ_perm h⟩

/-- Witness for C7 on a 3-row table and a rotation of it. -/
theorem claim_C7_witness :
    (([((1:ℚ), (2:ℚ)), (2, 1), (3, 5)] : List (ℚ × ℚ)).Perm
        [((3:ℚ), (5:ℚ)), (1, 2), (2, 1)] ∧
     2 ≤ ([((1:ℚ), (2:ℚ)), (2, 1), (3, 5)] : List (ℚ × ℚ)).length ∧
     ¬constList (([((1:ℚ), (2:ℚ)), (2, 1), (3, 5)] :
        List (ℚ × ℚ)).map Prod.fst) ∧
     ¬constList (([((1:ℚ), (2:ℚ)), (2, 1), (3, 5)] :
        List (ℚ × ℚ)).map Prod.snd)) ∧
    (pearsonrQ [((1:ℚ), (2:ℚ)), (2, 1), (3, 5)] =
        pearsonrQ [((3:ℚ), (5:ℚ)), (1, 2), (2, 1)] ∧
     spearmanrQ [((1:ℚ), (2:ℚ)), (2, 1), (3, 5)] =
        spearmanrQ [((3:ℚ), (5:ℚ)), (1, 2), (2, 1)]) :=
  ⟨⟨by decide, by decide, by decide, by decide⟩,
   claim_C7_row_order_invariance _ _ (by decide) (by decide) (by decide)
     (by decide)⟩

/- ### Degenerate statistics inputs (claim C1) -/

theorem svar_of_const {l : List ℚ} (h : constList l) : svar l = 0 := by
  cases l with
  | nil => simp [svar]
  | cons a rest =>
    have hrep : (a :: rest) = List.replicate (a :: rest).length a :=
      List.eq_replicate_of_mem fun b hb => h b hb a (List.mem_cons_self a rest)
    rw [svar, hrep]
    simp [List.map_replicate, List.sum_replicate, nsmul_eq_mul]
    ring

theorem rank_fst_const {l : List (ℚ × ℚ)} (h : constList (l.map Prod.fst)) :
    constList ((rankPairs l).map Prod.fst) := by
  intro x hx y hy
  obtain ⟨rp, hrp, hx2⟩ := List.mem_map.mp hx
  obtain ⟨p, hp, hp2⟩ := List.mem_map.mp hrp
  obtain ⟨rq, hrq, hy2⟩ := List.mem_map.mp hy
  obtain ⟨q, hq, hq2⟩ := List.mem_map.mp hrq
  have hpq : p.1 = q.1 :=
    h p.1 (List.mem_map.mpr ⟨p, hp, rfl⟩) q.1 (List.mem_map.mpr ⟨q, hq, rfl⟩)
  rw [← hx2, ← hp2, ← hy2, ← hq2, hpq]

theorem rank_snd_const {l : List (ℚ × ℚ)} (h : constList (l.map Prod.snd)) :
    constList ((rankPairs l).map Prod.snd) := by
  intro x hx y hy
  obtain ⟨rp, hrp, hx2⟩ := List.mem_map.mp hx
  obtain ⟨p, hp, hp2⟩ := List.mem_map.mp hrp
  obtain ⟨rq, hrq, hy2⟩ := List.mem_map.mp hy
  obtain ⟨q, hq, hq2⟩ := List.mem_map.mp hrq
  have hpq : p.2 = q.2 :=
    h p.2 (List.mem_map.mpr ⟨p, hp, rfl⟩) q.2 (List.mem_map.mpr ⟨q, hq, rfl⟩)
  rw [← hx2, ← hp2, ← hy2, ← hq2, hpq]

theorem corrCore_nan_of_const {l : List (ℚ × ℚ)}
    (h : constList (l.map Prod.fst) ∨ constList (l.map Prod.snd)) :
    corrCore l = .nan := by
  unfold corrCore
  rcases h with h | h
  · rw [if_pos (Or.inl (svar_of_const h))]
  · rw [if_pos (Or.inr (svar_of_const h))]

theorem spearmanrQ_nan_of_const {l : List (ℚ × ℚ)}
    (h : constList (l.map Prod.fst) ∨ constList (l.map Prod.snd)) :
    spearmanrQ l = .nan := by
  unfold spearmanrQ
  split
  · rfl
  · refine corrCore_nan_of_const ?_
    rcases h with h | h
    · exact Or.inl (rank_fst_const h)
    · exact Or.inr (rank_snd_const h)

theorem map_somes_no_none (l : List (ℚ × ℚ)) :
    ((l.map fun p => (p.1, some p.2)).any fun p => p.2.isNone) = false := by
  induction l with
  | nil => rfl
  | cons p rest ih => simpa using ih

theorem filterMap_map_somes (l : List (ℚ × ℚ)) :
    ((l.map fun p => (p.1, some p.2)).filterMap fun p =>
      p.2.map fun y => (p.1, y)) = l := by
  induction l with
  | nil => rfl
  | cons p rest ih => simp [List.filterMap_cons, ih]

theorem statsStep_somes (l : List (ℚ × ℚ)) :
    statsStep (l.map fun p => (p.1, some p.2)) =
      if l.length < 2 then
        .error (.statsError "x and y must have length at least 2")
      else .ok (corrCore l, spearmanrQ l) := by
  unfold statsStep
  rw [List.length_map]
  split
  · rfl
  · rw [if_neg (by rw [map_somes_no_none]; exact Bool.false_ne_true)]
    rw [filterMap_map_somes]

/-- C1 (amended): the statistics step of lines 110-112 has no defined
"insufficient data" outcome. With fewer than 2 paired observations (the empty
join included) `pearsonr` raises an uncaught `ValueError`, killing the
process; with at least 2 observations and zero variance in either sequence
both results are `(nan, nan)`; and whenever the step returns at all, `main`
interpolates its output verbatim into the document — `doc.pearsonCell` and
`doc.spearmanCell` are exactly the step's output, NaN or not, with no guard
in between. -/
theorem claim_C1_degenerate_stats :
    (∀ l : List (ℚ × Option ℚ), l.length < 2 →
      statsStep l = .error (.statsError "x and y must have length at least 2")) ∧
    (∀ l : List (ℚ × ℚ), 2 ≤ l.length →
      constList (l.map Prod.fst) ∨ constList (l.map Prod.snd) →
      statsStep (l.map fun p => (p.1, some p.2)) = .ok (.nan, .nan)) ∧
    (∀ rv tr doc, mainModel rv tr = .ok doc →
      ∃ mcol m, stage1 rv tr = .ok (mcol, m) ∧
        statsStep (seriesOf m) = .ok (doc.pearsonCell, doc.spearmanCell)) := by
  refine ⟨?_, ?_, ?_⟩
  · intro l hl
    unfold statsStep
    rw [if_pos hl]
  · intro l hl hconst
    rw [statsStep_somes, if_neg (by omega), corrCore_nan_of_const hconst,
      spearmanrQ_nan_of_const hconst]
  · intro rv tr doc hok
    obtain ⟨mcol, m, hs1, hstats, _⟩ := mainModel_ok_inv rv tr doc hok
    exact ⟨mcol, m, hs1, hstats⟩

/-- Reviews only in ISO week (2024, 1). -/
def emptyOverlapReviews : RawReviewTable := ⟨[.parsed ⟨2024, 1, 3⟩], [some 5]⟩

/-- Trend only in ISO week (2024, 2): no overlap with the reviews above. -/
def emptyOverlapTrend : RawTrendTable :=
  ⟨[.parsed ⟨2024, 1, 10⟩], [("전체", .numeric [10])]⟩

theorem stage1_emptyOverlap :
    stage1 emptyOverlapReviews emptyOverlapTrend = .ok ("전체", []) := by
  unfold stage1
  simp +decide [emptyOverlapReviews, emptyOverlapTrend, parseDates, Except.map,
    Bind.bind, Except.bind, trend_metric_col, colNames, numeric_cols,
    getMetricValues, List.find?, merged, weekly_reviews, weekly_trend,
    groupKeys, sortKeys, insertKey, keyLe, meanOpt, weekIndex,
    reviewKey, trendKey, iso_jan3, iso_jan10]

/-- Two weeks of reviews with the same average score (zero variance). -/
def constScoreReviews : RawReviewTable :=
  ⟨[.parsed ⟨2024, 1, 3⟩, .parsed ⟨2024, 1, 10⟩], [some 4, some 4]⟩

/-- The joined table of the constant-score run. -/
def constScoreMerged : List MergedRow :=
  [⟨2024, 1, some 4, 1, 10, 202401⟩, ⟨2024, 2, some 4, 1, 20, 202402⟩]

theorem stage1_constScore :
    stage1 constScoreReviews demo2Trend = .ok ("전체", constScoreMerged) := by
  unfold stage1
  simp +decide [constScoreReviews, demo2Trend, constScoreMerged, parseDates,
    Except.map, Bind.bind, Except.bind, trend_metric_col, colNames,
    numeric_cols, getMetricValues, List.find?, merged, weekly_reviews,
    weekly_trend, groupKeys, sortKeys, insertKey, keyLe, meanOpt, weekIndex,
    reviewKey, trendKey, iso_jan3, iso_jan10]

theorem statsStep_constScore :
    statsStep (seriesOf constScoreMerged) = .ok (.nan, .nan) := by
  simp +decide [seriesOf, constScoreMerged, statsStep, corrCore, svar, scov,
    spearmanrQ, rankPairs, rankVal, List.countP_cons]
  norm_num

/-- C1 is false on the code. On a joined table with no overlapping weeks the
statistics step does crash: `pearsonr` raises `ValueError` and no handler
exists, so the run dies (the `Except.error` here) instead of reporting a
defined "insufficient data" outcome. And on a run whose score series has zero
variance, the step silently yields NaN, which `main` interpolates into the
document (the built report's statistics cells are `.nan`). -/
theorem claim_C1_counterexample :
    mainModel emptyOverlapReviews emptyOverlapTrend =
      .error (.statsError "x and y must have length at least 2") ∧
    mainModel constScoreReviews demo2Trend =
      .ok ⟨"전체", summaryRowText "전체", .nan, .nan⟩ := by
  constructor
  · unfold mainModel
    rw [stage1_emptyOverlap]
    rfl
  · unfold mainModel
    rw [stage1_constScore]
    simp only [Bind.bind, Except.bind]
    rw [statsStep_constScore]
    rfl

/-- Witness for the amended C1: the empty series errors, a concrete
zero-variance series yields `(nan, nan)`, and the successful two-week run's
document carries the statistics step's output verbatim. -/
theorem claim_C1_witness :
    (([] : List (ℚ × Option ℚ)).length < 2 ∧
     statsStep ([] : List (ℚ × Option ℚ)) =
       .error (.statsError "x and y must have length at least 2")) ∧
    (2 ≤ ([((10:ℚ), (4:ℚ)), (20, 4)] : List (ℚ × ℚ)).length ∧
     (constList (([((10:ℚ), (4:ℚ)), (20, 4)] : List (ℚ × ℚ)).map Prod.fst) ∨
      constList (([((10:ℚ), (4:ℚ)), (20, 4)] : List (ℚ × ℚ)).map Prod.snd)) ∧
     statsStep (([((10:ℚ), (4:ℚ)), (20, 4)] : List (ℚ × ℚ)).map
        fun p => (p.1, some p.2)) = .ok (.nan, .nan)) ∧
    (∃ mcol m, stage1 demo2Reviews demo2Trend = .ok (mcol, m) ∧
      statsStep (seriesOf m) =
        .ok ((ReportDoc.mk "전체" (summaryRowText "전체")
            (.val (-20) 400 2) (.val (-1) 1 2)).pearsonCell,
          (ReportDoc.mk "전체" (summaryRowText "전체")
            (.val (-20) 400 2) (.val (-1) 1 2)).spearmanCell)) :=
  ⟨⟨by decide, claim_C1_degenerate_stats.1 [] (by decide)⟩,
   ⟨by decide, Or.inr (by decide),
     claim_C1_degenerate_stats.2.1 _ (by decide) (Or.inr (by decide))⟩,
   claim_C1_degenerate_stats.2.2 demo2Reviews demo2Trend _ mainModel_demo2⟩
